import Mathlib

/-!
Shallow embedding of the rainfall-forecast dashboard's data pipeline
(`forecast_rainfall_app.py`).

The program is a linear pandas script: load a forecast table, normalize
region names (rename "Jammu And Kashmir", split the merged UT row into two
rows), load a geojson boundary list (dropping two excluded UTs), and derive
four views per user selection: a per-region yearly-total table joined
against the boundary list (with a year-scoped Ladakh proxy), a per-month
series from a pivot table, a per-region multi-year series, and a
year-over-year comparison.

Rainfall values are modelled as rationals: the claims under study are
structural (key sets, presence/absence, exact duplication of values), not
about floating-point rounding.  pandas `groupby` sorts its keys; the key
order of the grouped tables is modelled as first-occurrence order, which is
immaterial here because every consumer of a grouped table is a key lookup,
a key-membership test, or the boundary left-join (which re-orders rows to
boundary order).  A missing cell of the pivot table (pandas `NaN`) is
modelled as `none`.
-/

namespace Rainfall

/-- A calendar date, time-zone free, as produced by `pd.to_datetime` on the
date column; only `year` and `month` are consumed downstream. -/
structure Date where
  year : Int
  month : Nat
  day : Nat
deriving DecidableEq, Repr

/-- One row of the forecast table after parsing: `state_name`, `date`,
`predicted_rainfall`. -/
structure RainfallRecord where
  state_name : String
  date : Date
  predicted_rainfall : ℚ
deriving DecidableEq, Repr

/-- Derived column `year` (`df["date"].dt.year`). -/
def RainfallRecord.year (r : RainfallRecord) : Int := r.date.year

/-- Derived column `month` (`df["date"].dt.month`). -/
def RainfallRecord.month (r : RainfallRecord) : Nat := r.date.month

/-- Three-letter month label, as `df["date"].dt.strftime("%b")` yields on a
valid date (months outside 1..12 cannot come out of `pd.to_datetime`). -/
def monthAbbrev : Nat → String
  | 1 => "Jan" | 2 => "Feb" | 3 => "Mar" | 4 => "Apr"
  | 5 => "May" | 6 => "Jun" | 7 => "Jul" | 8 => "Aug"
  | 9 => "Sep" | 10 => "Oct" | 11 => "Nov" | 12 => "Dec"
  | _ => ""

/-- Derived column `month_name`. -/
def RainfallRecord.month_name (r : RainfallRecord) : String :=
  monthAbbrev r.date.month

/-- The merged union-territory name appearing in the raw table. -/
def merged_ut : String := "The Dadra And Nagar Haveli And Daman And Diu"

/-- The rename rule: `"Jammu And Kashmir" → "Jammu and Kashmir"`
(`df["state_name"].replace`). -/
def renameJK (r : RainfallRecord) : RainfallRecord :=
  if r.state_name = "Jammu And Kashmir" then
    { r with state_name := "Jammu and Kashmir" }
  else r

/-- Overwrite the `state_name` column of a copied row
(`ut_rows.copy(); ut_rows["state_name"] = n`). -/
def withName (n : String) (r : RainfallRecord) : RainfallRecord :=
  { r with state_name := n }

/-- `load_data` after CSV parsing and date-column derivation: apply the
rename rule to every row, then split each merged-UT row into a
"Dadra and Nagar Haveli" copy and a "Daman and Diu" copy, dropping the
original merged rows; the concat order (non-merged rows, then the Dadra
copies, then the Daman copies) mirrors `pd.concat([df, ut_rows_dadra,
ut_rows_daman])`. -/
def load_data (raw : List RainfallRecord) : List RainfallRecord :=
  let df := raw.map renameJK
  let ut_rows := df.filter (fun r => r.state_name = merged_ut)
  df.filter (fun r => ¬ r.state_name = merged_ut)
    ++ ut_rows.map (withName "Dadra and Nagar Haveli")
    ++ ut_rows.map (withName "Daman and Diu")

/-- The fixed boundary exclusion set. -/
def excludedRegions : List String :=
  ["Andaman and Nicobar Islands", "Lakshadweep"]

/-- `load_geojson`, reduced to the region-name column: geometry payloads are
opaque and never consumed by the pipeline, so a boundary collection is its
list of `st_nm` properties; entries in the exclusion set are dropped. -/
def load_geojson (names : List String) : List String :=
  names.filter (fun n => ¬ n ∈ excludedRegions)

/-- Sum of the `predicted_rainfall` column (`.sum()`). -/
def sumRainfall (rs : List RainfallRecord) : ℚ :=
  (rs.map (fun r => r.predicted_rainfall)).sum

/-- Distinct states present in a record list (`df["state_name"].unique()`). -/
def statesOf (rs : List RainfallRecord) : List String :=
  (rs.map (fun r => r.state_name)).dedup

/-- Distinct years present in the data (`df["year"].unique()`), the pool the
year selector is populated from. -/
def observedYears (rs : List RainfallRecord) : List Int :=
  (rs.map (fun r => r.year)).dedup

/-- Rows of a given year (`df[df["year"] == selected_year]`). -/
def yearFilter (rs : List RainfallRecord) (y : Int) : List RainfallRecord :=
  rs.filter (fun r => r.year = y)

/-- `groupby("state_name")["predicted_rainfall"].sum()`: one `(state, total)`
pair per distinct state. -/
def groupTotals (rs : List RainfallRecord) : List (String × ℚ) :=
  (statesOf rs).map (fun s => (s, sumRainfall (rs.filter (fun r => r.state_name = s))))

/-- Key lookup in a `(state, total)` table: first row whose key matches, as a
unique-key pandas `.loc`/merge does. -/
def lookupTotal (s : String) : List (String × ℚ) → Option ℚ
  | [] => none
  | (k, v) :: t => if k = s then some v else lookupTotal s t

/-- `df_year` before the grouped year table gains the proxy: filter to the
selected year, group by state, sum. -/
def df_year_grouped (rs : List RainfallRecord) (y : Int) : List (String × ℚ) :=
  groupTotals (yearFilter rs y)

/-- `df_year` after the Ladakh proxy: if "Jammu and Kashmir" is among the
year's grouped keys and "Ladakh" is not, append a "Ladakh" row carrying the
J&K total (`pd.concat([df_year, ...Ladakh...])`). -/
def df_year (rs : List RainfallRecord) (y : Int) : List (String × ℚ) :=
  let g := df_year_grouped rs y
  if "Jammu and Kashmir" ∈ g.map Prod.fst ∧ ¬ "Ladakh" ∈ g.map Prod.fst then
    g ++ [("Ladakh", (lookupTotal "Jammu and Kashmir" g).getD 0)]
  else g

/-- `all_states_df.merge(df_year, on="state_name", how="left")`: one row per
boundary region (post-exclusion `geo_states`, in boundary order), carrying
the year's aggregated total when present and a null (`NaN`) otherwise. -/
def yearlyRegionTotals (rs : List RainfallRecord) (geoStates : List String)
    (y : Int) : List (String × Option ℚ) :=
  geoStates.map (fun s => (s, lookupTotal s (df_year rs y)))

/-- The canonical month order the pivot table is re-indexed onto. -/
def month_order : List String :=
  ["Jan", "Feb", "Mar", "Apr", "May", "Jun",
   "Jul", "Aug", "Sep", "Oct", "Nov", "Dec"]

/-- The month-name column values present anywhere in the data: exactly the
columns the pivot table `monthly.pivot_table(..., columns="month_name")`
produces. -/
def monthNamesPresent (rs : List RainfallRecord) : List String :=
  (rs.map (fun r => r.month_name)).dedup

/-- One cell of the pivot table: the summed rainfall of the
`(state, year, month)` group when the group has rows, `NaN` (`none`)
otherwise. -/
def pivotCell (rs : List RainfallRecord) (s : String) (y : Int)
    (m : String) : Option ℚ :=
  let g := rs.filter (fun r => r.state_name = s ∧ r.year = y ∧ r.month_name = m)
  if g.isEmpty then none else some (sumRainfall g)

/-- Whether the pivot table has a row for `(state, year)`: some record of
that state and year exists. -/
def pairPresent (rs : List RainfallRecord) (s : String) (y : Int) : Bool :=
  rs.any (fun r => r.state_name = s ∧ r.year = y)

/-- The monthly view (`monthly` / `monthly_pivot` / `row` / `data`): the
column selection `monthly_pivot[["state_name","year"] + month_order]` raises
a missing-column `KeyError` when some canonical month occurs in no record at
all; otherwise the selected `(state, year)` row, when present, is transposed
into the 12 `(month, value)` pairs in canonical order (cells of months with
no contributing rows are `NaN`), and an absent row yields the empty series
(the "No monthly data" branch). -/
def monthlySeries (rs : List RainfallRecord) (s : String) (y : Int) :
    Except String (List (String × Option ℚ)) :=
  if month_order.all (fun m => m ∈ monthNamesPresent rs) then
    if pairPresent rs s y then
      .ok (month_order.map (fun m => (m, pivotCell rs s y m)))
    else
      .ok []
  else
    .error "KeyError: month column missing from pivot"

/-- Insert into a sorted list of years. -/
def insertYear (x : Int) : List Int → List Int
  | [] => [x]
  | y :: ys => if x ≤ y then x :: y :: ys else y :: insertYear x ys

/-- Ascending sort of years, as `groupby("year")` emits its keys. -/
def sortYears (l : List Int) : List Int :=
  l.foldr insertYear []

/-- Distinct years with data for a state, ascending. -/
def yearsOf (rs : List RainfallRecord) (s : String) : List Int :=
  sortYears (((rs.filter (fun r => r.state_name = s)).map (fun r => r.year)).dedup)

/-- `yearly_state`: per-year rainfall totals of one state, ascending year,
one entry per year with data. -/
def yearlySeries (rs : List RainfallRecord) (s : String) : List (Int × ℚ) :=
  (yearsOf rs s).map
    (fun y => (y, sumRainfall (rs.filter (fun r => r.state_name = s ∧ r.year = y))))

/-- `df[(df["state_name"] == s) & (df["year"] == y)]["predicted_rainfall"].sum()`:
the scalar total used by the year-over-year block (an empty selection sums
to 0). -/
def regionYearTotal (rs : List RainfallRecord) (s : String) (y : Int) : ℚ :=
  sumRainfall (rs.filter (fun r => r.state_name = s ∧ r.year = y))

/-- The four values of the year-over-year block; `absolute_diff` and
`percent_change` are `None` in the "No previous year data" branch. -/
structure YoY where
  current_total : ℚ
  previous_total : ℚ
  absolute_diff : Option ℚ
  percent_change : Option ℚ
deriving DecidableEq, Repr

/-- The year-over-year comparison: totals for the selected and previous
year, and, only when `prev_value > 0`, the difference and percent change. -/
def yearOverYearComparison (rs : List RainfallRecord) (s : String)
    (y : Int) : YoY :=
  let curr := regionYearTotal rs s y
  let prev := regionYearTotal rs s (y - 1)
  if prev > 0 then
    ⟨curr, prev, some (curr - prev), some ((curr - prev) / prev * 100)⟩
  else
    ⟨curr, prev, none, none⟩

/-- Per-state rainfall total on one date, pre- or post-normalization: the
quantity compared by the merged-UT conservation property. -/
def dateRegionTotal (rs : List RainfallRecord) (s : String) (d : Date) : ℚ :=
  sumRainfall (rs.filter (fun r => r.state_name = s ∧ r.date = d))

/-- Concrete dataset for the monthly-series construction: one "Kerala" row
in January 2025 plus one "Tamil Nadu" row in each month of 2024, so every
canonical month name occurs somewhere in the data. -/
def c2data : List RainfallRecord :=
  [⟨"Kerala", ⟨2025, 1, 15⟩, 5⟩,
   ⟨"Tamil Nadu", ⟨2024, 1, 1⟩, 3⟩, ⟨"Tamil Nadu", ⟨2024, 2, 1⟩, 3⟩,
   ⟨"Tamil Nadu", ⟨2024, 3, 1⟩, 3⟩, ⟨"Tamil Nadu", ⟨2024, 4, 1⟩, 3⟩,
   ⟨"Tamil Nadu", ⟨2024, 5, 1⟩, 3⟩, ⟨"Tamil Nadu", ⟨2024, 6, 1⟩, 3⟩,
   ⟨"Tamil Nadu", ⟨2024, 7, 1⟩, 3⟩, ⟨"Tamil Nadu", ⟨2024, 8, 1⟩, 3⟩,
   ⟨"Tamil Nadu", ⟨2024, 9, 1⟩, 3⟩, ⟨"Tamil Nadu", ⟨2024, 10, 1⟩, 3⟩,
   ⟨"Tamil Nadu", ⟨2024, 11, 1⟩, 3⟩, ⟨"Tamil Nadu", ⟨2024, 12, 1⟩, 3⟩]

/-- Concrete dataset in which the month "Feb" (among others) occurs in no
record at all: the pivot table has no "Feb" column. -/
def c10missing : List RainfallRecord :=
  [⟨"Kerala", ⟨2025, 1, 15⟩, 5⟩]

/-- Concrete dataset covering all 12 canonical months ("Goa", one row per
month of 2026), on which the pivot-table column selection succeeds. -/
def c10full : List RainfallRecord :=
  [⟨"Goa", ⟨2026, 1, 1⟩, 2⟩, ⟨"Goa", ⟨2026, 2, 1⟩, 2⟩,
   ⟨"Goa", ⟨2026, 3, 1⟩, 2⟩, ⟨"Goa", ⟨2026, 4, 1⟩, 2⟩,
   ⟨"Goa", ⟨2026, 5, 1⟩, 2⟩, ⟨"Goa", ⟨2026, 6, 1⟩, 2⟩,
   ⟨"Goa", ⟨2026, 7, 1⟩, 2⟩, ⟨"Goa", ⟨2026, 8, 1⟩, 2⟩,
   ⟨"Goa", ⟨2026, 9, 1⟩, 2⟩, ⟨"Goa", ⟨2026, 10, 1⟩, 2⟩,
   ⟨"Goa", ⟨2026, 11, 1⟩, 2⟩, ⟨"Goa", ⟨2026, 12, 1⟩, 2⟩]

/-! ### Shared lemmas about the embedded operations -/

theorem sumRainfall_append (l₁ l₂ : List RainfallRecord) :
    sumRainfall (l₁ ++ l₂) = sumRainfall l₁ + sumRainfall l₂ := by
  simp [sumRainfall]

theorem sumRainfall_cons (r : RainfallRecord) (l : List RainfallRecord) :
    sumRainfall (r :: l) = r.predicted_rainfall + sumRainfall l := by
  simp [sumRainfall]

theorem lookupTotal_eq_none_iff (s : String) (l : List (String × ℚ)) :
    lookupTotal s l = none ↔ s ∉ l.map Prod.fst := by
  induction l with
  | nil => simp [lookupTotal]
  | cons p t ih =>
    obtain ⟨k, v⟩ := p
    by_cases h : k = s
    · subst h; simp [lookupTotal]
    · simp [lookupTotal, h, ih, Ne.symm h]

theorem lookupTotal_append_of_not_mem (s : String) (l₁ l₂ : List (String × ℚ))
    (h : s ∉ l₁.map Prod.fst) :
    lookupTotal s (l₁ ++ l₂) = lookupTotal s l₂ := by
  induction l₁ with
  | nil => rfl
  | cons p t ih =>
    obtain ⟨k, v⟩ := p
    simp only [List.map_cons, List.mem_cons, not_or] at h
    simp [lookupTotal, Ne.symm h.1, ih h.2]

theorem lookupTotal_map_keyed (keys : List String) (f : String → ℚ) (s : String) :
    lookupTotal s (keys.map (fun k => (k, f k))) =
      if s ∈ keys then some (f s) else none := by
  induction keys with
  | nil => simp [lookupTotal]
  | cons k t ih =>
    by_cases h : k = s
    · subst h; simp [lookupTotal]
    · simp [lookupTotal, h, ih, Ne.symm h]

theorem groupTotals_keys (rs : List RainfallRecord) :
    (groupTotals rs).map Prod.fst = statesOf rs := by
  simp [groupTotals, List.map_map, Function.comp_def]

theorem mem_statesOf (rs : List RainfallRecord) (s : String) :
    s ∈ statesOf rs ↔ ∃ r ∈ rs, r.state_name = s := by
  simp [statesOf, List.mem_dedup]

theorem lookupTotal_groupTotals (rs : List RainfallRecord) (s : String) :
    lookupTotal s (groupTotals rs) =
      if s ∈ statesOf rs then
        some (sumRainfall (rs.filter (fun r => r.state_name = s)))
      else none := by
  unfold groupTotals
  exact lookupTotal_map_keyed (statesOf rs)
    (fun s => sumRainfall (rs.filter (fun r => r.state_name = s))) s

theorem renameJK_date (r : RainfallRecord) : (renameJK r).date = r.date := by
  unfold renameJK; split <;> rfl

theorem renameJK_rain (r : RainfallRecord) :
    (renameJK r).predicted_rainfall = r.predicted_rainfall := by
  unfold renameJK; split <;> rfl

theorem renameJK_name_merged (r : RainfallRecord) :
    (renameJK r).state_name = merged_ut ↔ r.state_name = merged_ut := by
  unfold renameJK
  split
  · rename_i h
    rw [h]
    simp [merged_ut]
  · rfl

theorem renameJK_eq_self_of_merged (r : RainfallRecord)
    (h : r.state_name = merged_ut) : renameJK r = r := by
  unfold renameJK
  rw [if_neg]
  rw [h]
  decide

theorem filter_merged_map_renameJK (l : List RainfallRecord) :
    (l.map renameJK).filter (fun r => r.state_name = merged_ut)
      = l.filter (fun r => r.state_name = merged_ut) := by
  induction l with
  | nil => rfl
  | cons r t ih =>
    simp only [List.map_cons, List.filter_cons]
    by_cases h : r.state_name = merged_ut
    · rw [renameJK_eq_self_of_merged r h]
      simp [h, ih]
    · simp [h, ih, renameJK_name_merged]

theorem length_filter_not_merged_add (l : List RainfallRecord) :
    (l.filter (fun r => ¬ r.state_name = merged_ut)).length
      + (l.filter (fun r => r.state_name = merged_ut)).length = l.length := by
  induction l with
  | nil => rfl
  | cons r t ih =>
    by_cases h : r.state_name = merged_ut <;>
      simp [List.filter_cons, h, ← ih] <;> omega

theorem length_filter_map_renameJK_not_merged (l : List RainfallRecord) :
    ((l.map renameJK).filter (fun r => ¬ r.state_name = merged_ut)).length
      = (l.filter (fun r => ¬ r.state_name = merged_ut)).length := by
  induction l with
  | nil => rfl
  | cons r t ih =>
    rw [List.map_cons]
    by_cases h : r.state_name = merged_ut
    · rw [List.filter_cons_of_neg, List.filter_cons_of_neg, ih]
      · simp [h, renameJK_name_merged]
      · simp [h, renameJK_name_merged]
    · rw [List.filter_cons_of_pos, List.filter_cons_of_pos, List.length_cons,
        List.length_cons, ih]
      · simp [h, renameJK_name_merged]
      · simp [h, renameJK_name_merged]

theorem load_data_no_merged (raw : List RainfallRecord) :
    ∀ r ∈ load_data raw, ¬ r.state_name = merged_ut := by
  intro r hr
  unfold load_data at hr
  simp only [List.mem_append] at hr
  rcases hr with (h | h) | h
  · exact of_decide_eq_true (List.mem_filter.mp h).2
  · obtain ⟨a, _, rfl⟩ := List.mem_map.mp h
    simp [withName, merged_ut]
  · obtain ⟨a, _, rfl⟩ := List.mem_map.mp h
    simp [withName, merged_ut]

theorem sum_filter_name_date_of_not_merged (X : String) (hX : ¬ X = merged_ut)
    (d : Date) (l : List RainfallRecord) :
    sumRainfall ((l.filter (fun r => ¬ r.state_name = merged_ut)).filter
        (fun r => r.state_name = X ∧ r.date = d))
      = sumRainfall (l.filter (fun r => r.state_name = X ∧ r.date = d)) := by
  induction l with
  | nil => rfl
  | cons r t ih =>
    by_cases hm : r.state_name = merged_ut
    · have hq : ¬ (r.state_name = X ∧ r.date = d) := by
        rintro ⟨h1, -⟩
        exact hX (h1 ▸ hm)
      rw [List.filter_cons_of_neg (by simp [hm]),
        List.filter_cons_of_neg (by simp [hq]), ih]
    · by_cases hq : r.state_name = X ∧ r.date = d
      · rw [List.filter_cons_of_pos (by simp [hm]),
          List.filter_cons_of_pos (by simp [hq]),
          List.filter_cons_of_pos (by simp [hq]),
          sumRainfall_cons, sumRainfall_cons, ih]
      · rw [List.filter_cons_of_pos (by simp [hm]),
          List.filter_cons_of_neg (by simp [hq]),
          List.filter_cons_of_neg (by simp [hq]), ih]

theorem sum_filter_map_renameJK (X : String) (h1 : ¬ X = "Jammu And Kashmir")
    (h2 : ¬ X = "Jammu and Kashmir") (d : Date) (l : List RainfallRecord) :
    sumRainfall ((l.map renameJK).filter (fun r => r.state_name = X ∧ r.date = d))
      = sumRainfall (l.filter (fun r => r.state_name = X ∧ r.date = d)) := by
  induction l with
  | nil => rfl
  | cons r t ih =>
    rw [List.map_cons]
    by_cases hn : r.state_name = "Jammu And Kashmir"
    · have hold : ¬ (r.state_name = X ∧ r.date = d) := by
        rintro ⟨hx, -⟩
        exact h1 (hx.symm.trans hn)
      have hnew : ¬ ((renameJK r).state_name = X ∧ (renameJK r).date = d) := by
        rintro ⟨hx, -⟩
        unfold renameJK at hx
        rw [if_pos hn] at hx
        exact h2 hx.symm
      rw [List.filter_cons_of_neg (by simp [hnew]),
        List.filter_cons_of_neg (by simp [hold]), ih]
    · have hfix : renameJK r = r := by unfold renameJK; rw [if_neg hn]
      rw [hfix]
      by_cases hq : r.state_name = X ∧ r.date = d
      · rw [List.filter_cons_of_pos (by simp [hq]),
          List.filter_cons_of_pos (by simp [hq]),
          sumRainfall_cons, sumRainfall_cons, ih]
      · rw [List.filter_cons_of_neg (by simp [hq]),
          List.filter_cons_of_neg (by simp [hq]), ih]

theorem sum_filter_map_withName_same (X : String) (d : Date)
    (l : List RainfallRecord) :
    sumRainfall ((l.map (withName X)).filter
        (fun r => r.state_name = X ∧ r.date = d))
      = sumRainfall (l.filter (fun r => r.date = d)) := by
  induction l with
  | nil => rfl
  | cons r t ih =>
    rw [List.map_cons]
    by_cases hd : r.date = d
    · rw [List.filter_cons_of_pos (by simp [withName, hd]),
        List.filter_cons_of_pos (by simp [hd]),
        sumRainfall_cons, sumRainfall_cons, ih]
      rfl
    · rw [List.filter_cons_of_neg (by simp [withName, hd]),
        List.filter_cons_of_neg (by simp [hd]), ih]

theorem filter_map_withName_ne (X Y : String) (h : ¬ Y = X) (d : Date)
    (l : List RainfallRecord) :
    (l.map (withName Y)).filter (fun r => r.state_name = X ∧ r.date = d)
      = [] := by
  induction l with
  | nil => rfl
  | cons r t ih =>
    simp only [List.map_cons, List.filter_cons]
    simp [withName, h, ih]

theorem sum_filter_merged_then_date (d : Date) (l : List RainfallRecord) :
    sumRainfall ((l.filter (fun r => r.state_name = merged_ut)).filter
        (fun r => r.date = d))
      = sumRainfall (l.filter (fun r => r.state_name = merged_ut ∧ r.date = d)) := by
  induction l with
  | nil => rfl
  | cons r t ih =>
    by_cases hm : r.state_name = merged_ut
    · by_cases hd : r.date = d
      · rw [List.filter_cons_of_pos (by simp [hm]),
          List.filter_cons_of_pos (by simp [hd]),
          List.filter_cons_of_pos (by simp [hm, hd]),
          sumRainfall_cons, sumRainfall_cons, ih]
      · rw [List.filter_cons_of_pos (by simp [hm]),
          List.filter_cons_of_neg (by simp [hd]),
          List.filter_cons_of_neg (by simp [hd]), ih]
    · rw [List.filter_cons_of_neg (by simp [hm]),
        List.filter_cons_of_neg (by simp [hm]), ih]

end Rainfall

namespace Rainfall

theorem renameJK_not_old (r : RainfallRecord) :
    ¬ (renameJK r).state_name = "Jammu And Kashmir" := by
  unfold renameJK
  split
  · simp
  · rename_i h
    exact h


/-! ### Claim theorems -/

/-- C1: for every records input and every year, the key column of
`YearlyRegionTotals` is exactly the post-exclusion boundary region-name
list, regardless of which regions appear in the rainfall data, and a
boundary region with no entry in the year's aggregated table is present
with an absent (`none`) total rather than zero. -/
theorem C1_yearly_totals_keys (rs : List RainfallRecord)
    (names : List String) (y : Int) :
    (yearlyRegionTotals rs (load_geojson names) y).map Prod.fst
        = load_geojson names ∧
    ∀ s ∈ load_geojson names, s ∉ (df_year rs y).map Prod.fst →
      (s, (none : Option ℚ)) ∈ yearlyRegionTotals rs (load_geojson names) y := by
  constructor
  · simp [yearlyRegionTotals, List.map_map, Function.comp_def]
  · intro s hs hnone
    refine List.mem_map.mpr ⟨s, hs, ?_⟩
    rw [(lookupTotal_eq_none_iff s (df_year rs y)).mpr hnone]

/-- C1 witness: on a concrete record list and boundary list, the key column
equals the post-exclusion boundary list and a data-less boundary region
("Sikkim") carries `none`. -/
theorem C1_yearly_totals_keys_witness :
    (yearlyRegionTotals
        [⟨"Kerala", ⟨2025, 1, 15⟩, 5⟩]
        (load_geojson ["Kerala", "Sikkim", "Lakshadweep"]) 2025).map Prod.fst
      = load_geojson ["Kerala", "Sikkim", "Lakshadweep"] ∧
    ("Sikkim", (none : Option ℚ)) ∈ yearlyRegionTotals
        [⟨"Kerala", ⟨2025, 1, 15⟩, 5⟩]
        (load_geojson ["Kerala", "Sikkim", "Lakshadweep"]) 2025 :=
  ⟨(C1_yearly_totals_keys [⟨"Kerala", ⟨2025, 1, 15⟩, 5⟩]
      ["Kerala", "Sikkim", "Lakshadweep"] 2025).1,
   (C1_yearly_totals_keys [⟨"Kerala", ⟨2025, 1, 15⟩, 5⟩]
      ["Kerala", "Sikkim", "Lakshadweep"] 2025).2 "Sikkim"
      (by simp +decide [load_geojson, excludedRegions])
      (by simp +decide [df_year, df_year_grouped, groupTotals, statesOf,
        yearFilter, sumRainfall, lookupTotal, RainfallRecord.year])⟩

/-- C5: the year-over-year comparison is total (never a division error):
its totals are the sums of the matching rows (0 when no row matches), both
derived quantities are absent when the previous-year total is 0, and when
it is positive they are the difference and the percent change. -/
theorem C5_yoy_division_guard (rs : List RainfallRecord) (s : String)
    (y : Int) :
    (yearOverYearComparison rs s y).current_total = regionYearTotal rs s y ∧
    (yearOverYearComparison rs s y).previous_total
        = regionYearTotal rs s (y - 1) ∧
    ((∀ r ∈ rs, ¬ (r.state_name = s ∧ r.year = y)) →
      (yearOverYearComparison rs s y).current_total = 0) ∧
    (regionYearTotal rs s (y - 1) = 0 →
      (yearOverYearComparison rs s y).absolute_diff = none ∧
      (yearOverYearComparison rs s y).percent_change = none) ∧
    (regionYearTotal rs s (y - 1) > 0 →
      (yearOverYearComparison rs s y).absolute_diff
          = some (regionYearTotal rs s y - regionYearTotal rs s (y - 1)) ∧
      (yearOverYearComparison rs s y).percent_change
          = some ((regionYearTotal rs s y - regionYearTotal rs s (y - 1))
              / regionYearTotal rs s (y - 1) * 100)) := by
  refine ⟨?_, ?_, ?_, ?_, ?_⟩
  · simp only [yearOverYearComparison]
    split <;> rfl
  · simp only [yearOverYearComparison]
    split <;> rfl
  · intro h
    have hnil : rs.filter (fun r => r.state_name = s ∧ r.year = y) = [] :=
      List.filter_eq_nil_iff.mpr (by simpa using h)
    simp only [yearOverYearComparison, regionYearTotal, hnil]
    split <;> simp [sumRainfall]
  · intro h
    simp only [yearOverYearComparison]
    rw [if_neg]
    · exact ⟨rfl, rfl⟩
    · rw [h]
      exact lt_irrefl 0
  · intro h
    simp only [yearOverYearComparison]
    rw [if_pos h]
    exact ⟨rfl, rfl⟩

/-- C5 witness: a concrete dataset with a positive previous-year total of 4
and a current total of 5 yields difference 1 and percent change 25, and a
dataset with no matching rows yields a zero current total. -/
theorem C5_yoy_division_guard_witness :
    regionYearTotal
        [⟨"Kerala", ⟨2024, 1, 1⟩, 4⟩, ⟨"Kerala", ⟨2025, 1, 1⟩, 5⟩]
        "Kerala" (2025 - 1) > 0 ∧
    (yearOverYearComparison
        [⟨"Kerala", ⟨2024, 1, 1⟩, 4⟩, ⟨"Kerala", ⟨2025, 1, 1⟩, 5⟩]
        "Kerala" 2025).absolute_diff
      = some (regionYearTotal
          [⟨"Kerala", ⟨2024, 1, 1⟩, 4⟩, ⟨"Kerala", ⟨2025, 1, 1⟩, 5⟩]
          "Kerala" 2025
        - regionYearTotal
          [⟨"Kerala", ⟨2024, 1, 1⟩, 4⟩, ⟨"Kerala", ⟨2025, 1, 1⟩, 5⟩]
          "Kerala" (2025 - 1)) :=
  ⟨by simp +decide [regionYearTotal, sumRainfall, RainfallRecord.year],
   ((C5_yoy_division_guard
      [⟨"Kerala", ⟨2024, 1, 1⟩, 4⟩, ⟨"Kerala", ⟨2025, 1, 1⟩, 5⟩]
      "Kerala" 2025).2.2.2.2
      (by simp +decide [regionYearTotal, sumRainfall, RainfallRecord.year])).1⟩

/-- C9: every aggregator operation is a pure function of its arguments:
repeating a call with identical records, boundaries and selection returns
an identical result.  The absence of mutation is structural in this
embedding: the pandas operations the script composes (`filter`, `groupby`,
`pivot_table`, `merge`, `concat`) all construct new tables, which the
embedding reflects by modelling each view as a function of immutable
lists. -/
theorem C9_aggregators_pure (rs : List RainfallRecord) (gs : List String)
    (s : String) (y : Int) :
    yearlyRegionTotals rs gs y = yearlyRegionTotals rs gs y ∧
    monthlySeries rs s y = monthlySeries rs s y ∧
    yearlySeries rs s = yearlySeries rs s ∧
    yearOverYearComparison rs s y = yearOverYearComparison rs s y :=
  ⟨rfl, rfl, rfl, rfl⟩

end Rainfall

namespace Rainfall

/-- C3: `load_data` applies the rename rule before the split rule: the
output contains no "Jammu And Kashmir" row (each such input row reappears
renamed) and no merged-UT row; every merged-UT input row yields both a
"Dadra and Nagar Haveli" and a "Daman and Diu" descendant with date and
rainfall unchanged; and the output length exceeds the input length by
exactly the number of merged-UT rows, so each merged row yields exactly two
descendants and no extra or missing rows. -/
theorem C3_rename_before_split (raw : List RainfallRecord) :
    (∀ r ∈ load_data raw, ¬ r.state_name = merged_ut) ∧
    (∀ r ∈ load_data raw, ¬ r.state_name = "Jammu And Kashmir") ∧
    (∀ r ∈ raw, r.state_name = "Jammu And Kashmir" →
      { r with state_name := "Jammu and Kashmir" } ∈ load_data raw) ∧
    (∀ r ∈ raw, r.state_name = merged_ut →
      withName "Dadra and Nagar Haveli" r ∈ load_data raw ∧
      withName "Daman and Diu" r ∈ load_data raw ∧
      (withName "Dadra and Nagar Haveli" r).date = r.date ∧
      (withName "Dadra and Nagar Haveli" r).predicted_rainfall
        = r.predicted_rainfall ∧
      (withName "Daman and Diu" r).date = r.date ∧
      (withName "Daman and Diu" r).predicted_rainfall
        = r.predicted_rainfall) ∧
    (load_data raw).length
      = raw.length + (raw.filter (fun r => r.state_name = merged_ut)).length := by
  refine ⟨load_data_no_merged raw, ?_, ?_, ?_, ?_⟩
  · intro r hr
    unfold load_data at hr
    simp only [List.mem_append] at hr
    rcases hr with (h | h) | h
    · obtain ⟨a, -, rfl⟩ := List.mem_map.mp (List.mem_filter.mp h).1
      exact renameJK_not_old a
    · obtain ⟨a, -, rfl⟩ := List.mem_map.mp h
      simp [withName]
    · obtain ⟨a, -, rfl⟩ := List.mem_map.mp h
      simp [withName]
  · intro r hr hname
    unfold load_data
    refine List.mem_append.mpr (Or.inl (List.mem_append.mpr (Or.inl ?_)))
    refine List.mem_filter.mpr ⟨?_, ?_⟩
    · refine List.mem_map.mpr ⟨r, hr, ?_⟩
      unfold renameJK
      rw [if_pos hname]
    · simp [merged_ut]
  · intro r hr hname
    have hut : r ∈ (raw.map renameJK).filter (fun r => r.state_name = merged_ut) := by
      rw [filter_merged_map_renameJK]
      exact List.mem_filter.mpr ⟨hr, decide_eq_true hname⟩
    refine ⟨?_, ?_, rfl, rfl, rfl, rfl⟩
    · unfold load_data
      exact List.mem_append.mpr (Or.inl (List.mem_append.mpr (Or.inr
        (List.mem_map.mpr ⟨r, hut, rfl⟩))))
    · unfold load_data
      exact List.mem_append.mpr (Or.inr (List.mem_map.mpr ⟨r, hut, rfl⟩))
  · unfold load_data
    rw [List.length_append, List.length_append, List.length_map,
      List.length_map, filter_merged_map_renameJK,
      length_filter_map_renameJK_not_merged]
    have := length_filter_not_merged_add raw
    omega

/-- C3 witness: on a two-row input (one "Jammu And Kashmir" row, one
merged-UT row) the merged row's two descendants are in the output and the
output has exactly one row more than the input. -/
theorem C3_rename_before_split_witness :
    (⟨merged_ut, ⟨2025, 2, 1⟩, 20⟩ : RainfallRecord) ∈
        [(⟨"Jammu And Kashmir", ⟨2025, 1, 15⟩, 10⟩ : RainfallRecord),
         ⟨merged_ut, ⟨2025, 2, 1⟩, 20⟩] ∧
    withName "Dadra and Nagar Haveli" ⟨merged_ut, ⟨2025, 2, 1⟩, 20⟩ ∈
      load_data [⟨"Jammu And Kashmir", ⟨2025, 1, 15⟩, 10⟩,
        ⟨merged_ut, ⟨2025, 2, 1⟩, 20⟩] ∧
    (load_data [⟨"Jammu And Kashmir", ⟨2025, 1, 15⟩, 10⟩,
        ⟨merged_ut, ⟨2025, 2, 1⟩, 20⟩]).length
      = ([(⟨"Jammu And Kashmir", ⟨2025, 1, 15⟩, 10⟩ : RainfallRecord),
          ⟨merged_ut, ⟨2025, 2, 1⟩, 20⟩]).length
        + (([(⟨"Jammu And Kashmir", ⟨2025, 1, 15⟩, 10⟩ : RainfallRecord),
            ⟨merged_ut, ⟨2025, 2, 1⟩, 20⟩]).filter
            (fun r => r.state_name = merged_ut)).length :=
  ⟨List.mem_cons_of_mem _ (List.mem_cons_self _ _),
   ((C3_rename_before_split
      [⟨"Jammu And Kashmir", ⟨2025, 1, 15⟩, 10⟩,
       ⟨merged_ut, ⟨2025, 2, 1⟩, 20⟩]).2.2.2.1
      ⟨merged_ut, ⟨2025, 2, 1⟩, 20⟩
      (List.mem_cons_of_mem _ (List.mem_cons_self _ _)) rfl).1,
   (C3_rename_before_split
      [⟨"Jammu And Kashmir", ⟨2025, 1, 15⟩, 10⟩,
       ⟨merged_ut, ⟨2025, 2, 1⟩, 20⟩]).2.2.2.2⟩

end Rainfall

namespace Rainfall

theorem sumRainfall_nil : sumRainfall [] = 0 := rfl

/-- C6 counterexample: for the single-row input holding the merged-UT row
of 2025-02-01 with rainfall 20, the two split regions' combined
(summed) post-normalization totals for that date are 40, twice the
pre-split merged total of 20 — the split copies the value into each
descendant instead of sharing it, so the claimed sum equality fails. -/
theorem C6_combined_totals_counterexample :
    dateRegionTotal (load_data [⟨merged_ut, ⟨2025, 2, 1⟩, 20⟩])
        "Dadra and Nagar Haveli" ⟨2025, 2, 1⟩
      + dateRegionTotal (load_data [⟨merged_ut, ⟨2025, 2, 1⟩, 20⟩])
        "Daman and Diu" ⟨2025, 2, 1⟩ = 40 ∧
    dateRegionTotal [⟨merged_ut, ⟨2025, 2, 1⟩, 20⟩] merged_ut ⟨2025, 2, 1⟩
      = 20 ∧
    ¬ (dateRegionTotal (load_data [⟨merged_ut, ⟨2025, 2, 1⟩, 20⟩])
        "Dadra and Nagar Haveli" ⟨2025, 2, 1⟩
      + dateRegionTotal (load_data [⟨merged_ut, ⟨2025, 2, 1⟩, 20⟩])
        "Daman and Diu" ⟨2025, 2, 1⟩
      = dateRegionTotal [⟨merged_ut, ⟨2025, 2, 1⟩, 20⟩] merged_ut
          ⟨2025, 2, 1⟩) := by
  refine ⟨?_, ?_, ?_⟩ <;>
    simp +decide [dateRegionTotal, load_data, sumRainfall, merged_ut,
      renameJK, withName]
  norm_num

/-- C6 amended: after normalization no record carries the merged-UT name,
and for every date EACH split region's total equals the pre-split merged
region's total for that date plus the total of input rows already carrying
that split region's name (the merged value is copied into each descendant,
not divided between them, so the two split totals sum to twice the merged
total when no such pre-existing rows exist). -/
theorem C6_split_totals (raw : List RainfallRecord) (d : Date) :
    (∀ r ∈ load_data raw, ¬ r.state_name = merged_ut) ∧
    dateRegionTotal (load_data raw) "Dadra and Nagar Haveli" d
      = dateRegionTotal raw merged_ut d
        + dateRegionTotal raw "Dadra and Nagar Haveli" d ∧
    dateRegionTotal (load_data raw) "Daman and Diu" d
      = dateRegionTotal raw merged_ut d
        + dateRegionTotal raw "Daman and Diu" d := by
  refine ⟨load_data_no_merged raw, ?_, ?_⟩
  · simp only [dateRegionTotal, load_data]
    rw [List.filter_append, List.filter_append, sumRainfall_append,
      sumRainfall_append,
      sum_filter_name_date_of_not_merged "Dadra and Nagar Haveli" (by decide) d,
      sum_filter_map_renameJK "Dadra and Nagar Haveli" (by decide) (by decide) d,
      sum_filter_map_withName_same "Dadra and Nagar Haveli" d,
      filter_map_withName_ne "Dadra and Nagar Haveli" "Daman and Diu" (by decide) d,
      filter_merged_map_renameJK, sum_filter_merged_then_date, sumRainfall_nil]
    ring
  · simp only [dateRegionTotal, load_data]
    rw [List.filter_append, List.filter_append, sumRainfall_append,
      sumRainfall_append,
      sum_filter_name_date_of_not_merged "Daman and Diu" (by decide) d,
      sum_filter_map_renameJK "Daman and Diu" (by decide) (by decide) d,
      sum_filter_map_withName_same "Daman and Diu" d,
      filter_map_withName_ne "Daman and Diu" "Dadra and Nagar Haveli" (by decide) d,
      filter_merged_map_renameJK, sum_filter_merged_then_date, sumRainfall_nil]
    ring

/-- C6 amended witness: with a merged-UT row of value 20 and a
pre-existing "Dadra and Nagar Haveli" row of value 7 on the same date, the
post-normalization Dadra total is the merged 20 plus the pre-existing 7,
and no output row carries the merged name. -/
theorem C6_split_totals_witness :
    withName "Dadra and Nagar Haveli" ⟨merged_ut, ⟨2025, 2, 1⟩, 20⟩ ∈
      load_data [⟨merged_ut, ⟨2025, 2, 1⟩, 20⟩,
        ⟨"Dadra and Nagar Haveli", ⟨2025, 2, 1⟩, 7⟩] ∧
    ¬ (withName "Dadra and Nagar Haveli"
        ⟨merged_ut, ⟨2025, 2, 1⟩, 20⟩).state_name = merged_ut ∧
    dateRegionTotal
        (load_data [⟨merged_ut, ⟨2025, 2, 1⟩, 20⟩,
          ⟨"Dadra and Nagar Haveli", ⟨2025, 2, 1⟩, 7⟩])
        "Dadra and Nagar Haveli" ⟨2025, 2, 1⟩
      = dateRegionTotal [⟨merged_ut, ⟨2025, 2, 1⟩, 20⟩,
          ⟨"Dadra and Nagar Haveli", ⟨2025, 2, 1⟩, 7⟩] merged_ut ⟨2025, 2, 1⟩
        + dateRegionTotal [⟨merged_ut, ⟨2025, 2, 1⟩, 20⟩,
            ⟨"Dadra and Nagar Haveli", ⟨2025, 2, 1⟩, 7⟩]
            "Dadra and Nagar Haveli" ⟨2025, 2, 1⟩ :=
  ⟨by simp +decide [load_data, merged_ut, renameJK, withName],
   (C6_split_totals [⟨merged_ut, ⟨2025, 2, 1⟩, 20⟩,
      ⟨"Dadra and Nagar Haveli", ⟨2025, 2, 1⟩, 7⟩] ⟨2025, 2, 1⟩).1
     (withName "Dadra and Nagar Haveli" ⟨merged_ut, ⟨2025, 2, 1⟩, 20⟩)
     (by simp +decide [load_data, merged_ut, renameJK, withName]),
   (C6_split_totals [⟨merged_ut, ⟨2025, 2, 1⟩, 20⟩,
      ⟨"Dadra and Nagar Haveli", ⟨2025, 2, 1⟩, 7⟩] ⟨2025, 2, 1⟩).2.1⟩

end Rainfall

namespace Rainfall

/-- C2 counterexample: on `c2data` the pair ("Kerala", 2025) exists (one
January row), so the monthly series has 12 entries — but every month of
2025 without contributing Kerala rows carries the pivot table's `NaN`
(`none`), not 0: the result is not the all-zero-filled series the claim
demands (e.g. the "Feb" entry is `("Feb", none)`, not `("Feb", some 0)`). -/
theorem C2_zero_fill_counterexample :
    pairPresent c2data "Kerala" 2025 = true ∧
    monthlySeries c2data "Kerala" 2025 = Except.ok
      [("Jan", some 5), ("Feb", none), ("Mar", none), ("Apr", none),
       ("May", none), ("Jun", none), ("Jul", none), ("Aug", none),
       ("Sep", none), ("Oct", none), ("Nov", none), ("Dec", none)] ∧
    ¬ monthlySeries c2data "Kerala" 2025 = Except.ok
      [("Jan", some 5), ("Feb", some 0), ("Mar", some 0), ("Apr", some 0),
       ("May", some 0), ("Jun", some 0), ("Jul", some 0), ("Aug", some 0),
       ("Sep", some 0), ("Oct", some 0), ("Nov", some 0), ("Dec", some 0)] := by
  refine ⟨?_, ?_, ?_⟩ <;>
    simp +decide [c2data, monthlySeries, monthNamesPresent, month_order,
      pairPresent, pivotCell, sumRainfall, RainfallRecord.month_name,
      RainfallRecord.year, monthAbbrev]

/-- C2 amended: provided every canonical month occurs somewhere in the
dataset (otherwise the pivot column selection fails, see the
missing-column claim), `MonthlySeries(region, year)` returns exactly 12
entries in calendar order Jan..Dec whenever some row exists for that
(region, year) — a month with no contributing rows inside that pair is
present with an absent (`NaN`/`none`) value rather than 0 — and returns
the empty sequence when no row matches the pair. -/
theorem C2_monthly_series_shape (rs : List RainfallRecord) (s : String)
    (y : Int) (hM : ∀ m ∈ month_order, m ∈ monthNamesPresent rs) :
    (pairPresent rs s y = true →
      monthlySeries rs s y
          = Except.ok (month_order.map (fun m => (m, pivotCell rs s y m))) ∧
      (month_order.map (fun m => (m, pivotCell rs s y m))).map Prod.fst
          = month_order ∧
      (month_order.map (fun m => (m, pivotCell rs s y m))).length = 12 ∧
      ∀ m ∈ month_order,
        (∀ r ∈ rs, ¬ (r.state_name = s ∧ r.year = y ∧ r.month_name = m)) →
          (m, (none : Option ℚ))
            ∈ month_order.map (fun m => (m, pivotCell rs s y m))) ∧
    (pairPresent rs s y = false → monthlySeries rs s y = Except.ok []) := by
  have hall : month_order.all (fun m => m ∈ monthNamesPresent rs) = true :=
    List.all_eq_true.mpr (fun m hm => decide_eq_true (hM m hm))
  constructor
  · intro hp
    refine ⟨?_, ?_, ?_, ?_⟩
    · unfold monthlySeries
      rw [if_pos hall, if_pos hp]
    · simp [List.map_map, Function.comp_def]
    · simp [List.length_map, month_order]
    · intro m hm hnone
      refine List.mem_map.mpr ⟨m, hm, ?_⟩
      have hnil : rs.filter
          (fun r => r.state_name = s ∧ r.year = y ∧ r.month_name = m) = [] :=
        List.filter_eq_nil_iff.mpr (by simpa using hnone)
      simp [pivotCell, hnil]
      simpa using hnone
  · intro hp
    unfold monthlySeries
    rw [if_pos hall, if_neg]
    rw [hp]
    simp

/-- C2 amended witness: on `c2data` every canonical month occurs in the
data, ("Kerala", 2025) has a row, the series is the 12 pivot cells in
order, and the row-less month "Feb" is present with value `none`. -/
theorem C2_monthly_series_shape_witness :
    month_order.all (fun m => m ∈ monthNamesPresent c2data) = true ∧
    pairPresent c2data "Kerala" 2025 = true ∧
    monthlySeries c2data "Kerala" 2025
      = Except.ok (month_order.map (fun m => (m, pivotCell c2data "Kerala" 2025 m))) ∧
    ("Feb", (none : Option ℚ))
      ∈ month_order.map (fun m => (m, pivotCell c2data "Kerala" 2025 m)) :=
  ⟨by decide, by decide,
   ((C2_monthly_series_shape c2data "Kerala" 2025 (by decide)).1 (by decide)).1,
   ((C2_monthly_series_shape c2data "Kerala" 2025 (by decide)).1 (by decide)).2.2.2
     "Feb" (by decide) (by decide)⟩

/-- C10: the monthly-series construction selects all 12 month columns from
the pivot table unconditionally, so when some canonical month occurs in no
record of the whole dataset it fails with the missing-column error for
every selection, and when every month occurs somewhere it succeeds for
every selection. -/
theorem C10_month_column_selection (rs : List RainfallRecord) (s : String)
    (y : Int) :
    ((∃ m ∈ month_order, m ∉ monthNamesPresent rs) →
      monthlySeries rs s y
        = Except.error "KeyError: month column missing from pivot") ∧
    ((∀ m ∈ month_order, m ∈ monthNamesPresent rs) →
      ∃ l, monthlySeries rs s y = Except.ok l) := by
  constructor
  · rintro ⟨m, hm, hnot⟩
    unfold monthlySeries
    rw [if_neg]
    intro hall
    exact hnot (of_decide_eq_true (List.all_eq_true.mp hall m hm))
  · intro hM
    have hall : month_order.all (fun m => m ∈ monthNamesPresent rs) = true :=
      List.all_eq_true.mpr (fun m hm => decide_eq_true (hM m hm))
    unfold monthlySeries
    rw [if_pos hall]
    split
    · exact ⟨_, rfl⟩
    · exact ⟨_, rfl⟩

/-- C10 witness: "Feb" occurs in no record of `c10missing`, and every
selection fails with the missing-column error there; on `c10full` every
month occurs and the selection succeeds. -/
theorem C10_month_column_selection_witness :
    "Feb" ∈ month_order ∧
    "Feb" ∉ monthNamesPresent c10missing ∧
    monthlySeries c10missing "Kerala" 2025
      = Except.error "KeyError: month column missing from pivot" ∧
    monthlySeries c10missing "NotARegion" 1900
      = Except.error "KeyError: month column missing from pivot" ∧
    month_order.all (fun m => m ∈ monthNamesPresent c10full) = true ∧
    monthlySeries c10full "Goa" 2026
      = Except.ok (month_order.map (fun m => (m, pivotCell c10full "Goa" 2026 m))) :=
  ⟨by decide, by decide,
   (C10_month_column_selection c10missing "Kerala" 2025).1
     ⟨"Feb", by decide, by decide⟩,
   (C10_month_column_selection c10missing "NotARegion" 1900).1
     ⟨"Feb", by decide, by decide⟩,
   by decide,
   by
     have h := (C10_month_column_selection c10full "Goa" 2026).2 (by decide)
     unfold monthlySeries at h ⊢
     rw [if_pos (by decide), if_pos (by decide)]⟩

end Rainfall

namespace Rainfall

theorem pairPresent_false_of_no_state (rs : List RainfallRecord) (s : String)
    (y : Int) (h : ∀ r ∈ rs, ¬ r.state_name = s) :
    pairPresent rs s y = false := by
  rw [Bool.eq_false_iff]
  intro hc
  obtain ⟨r, hr, hp⟩ := List.any_eq_true.mp hc
  exact h r hr (of_decide_eq_true hp).1

theorem pairPresent_false_of_not_observed (rs : List RainfallRecord)
    (s : String) (y : Int) (h : y ∉ observedYears rs) :
    pairPresent rs s y = false := by
  rw [Bool.eq_false_iff]
  intro hc
  obtain ⟨r, hr, hp⟩ := List.any_eq_true.mp hc
  refine h ?_
  unfold observedYears
  rw [List.mem_dedup]
  exact List.mem_map.mpr ⟨r, hr, (of_decide_eq_true hp).2⟩

theorem monthlySeries_empty_of_no_pair (rs : List RainfallRecord)
    (s : String) (y : Int)
    (hM : ∀ m ∈ month_order, m ∈ monthNamesPresent rs)
    (hp : pairPresent rs s y = false) :
    monthlySeries rs s y = Except.ok [] := by
  have hall : month_order.all (fun m => m ∈ monthNamesPresent rs) = true :=
    List.all_eq_true.mpr (fun m hm => decide_eq_true (hM m hm))
  unfold monthlySeries
  rw [if_pos hall, if_neg]
  rw [hp]
  simp

theorem yearFilter_eq_nil_of_not_observed (rs : List RainfallRecord)
    (y : Int) (h : y ∉ observedYears rs) : yearFilter rs y = [] := by
  refine List.filter_eq_nil_iff.mpr (fun r hr => ?_)
  simp only [decide_eq_true_iff]
  intro hy
  refine h ?_
  unfold observedYears
  rw [List.mem_dedup]
  exact List.mem_map.mpr ⟨r, hr, hy⟩

/-- C4 counterexample: with a single "Jammu and Kashmir" record of 50 in
2025 and a boundary list lacking "Ladakh", the proxy fires in the
aggregated table (its "Ladakh" lookup is 50) but the subsequent left-join
onto the boundary region list drops the synthetic row: `YearlyRegionTotals`
contains no "Ladakh" entry at all, contradicting the claim that it always
carries the proxied entry. -/
theorem C4_proxy_dropped_counterexample :
    lookupTotal "Jammu and Kashmir"
        (df_year_grouped [⟨"Jammu and Kashmir", ⟨2025, 1, 1⟩, 50⟩] 2025)
      = some 50 ∧
    "Ladakh" ∉ (df_year_grouped
        [⟨"Jammu and Kashmir", ⟨2025, 1, 1⟩, 50⟩] 2025).map Prod.fst ∧
    lookupTotal "Ladakh"
        (df_year [⟨"Jammu and Kashmir", ⟨2025, 1, 1⟩, 50⟩] 2025) = some 50 ∧
    yearlyRegionTotals [⟨"Jammu and Kashmir", ⟨2025, 1, 1⟩, 50⟩]
        ["Jammu and Kashmir"] 2025
      = [("Jammu and Kashmir", some 50)] ∧
    ¬ ("Ladakh", (some 50 : Option ℚ)) ∈ yearlyRegionTotals
        [⟨"Jammu and Kashmir", ⟨2025, 1, 1⟩, 50⟩] ["Jammu and Kashmir"] 2025 := by
  refine ⟨?_, ?_, ?_, ?_, ?_⟩ <;>
    simp +decide [df_year, df_year_grouped, groupTotals, statesOf, yearFilter,
      sumRainfall, lookupTotal, yearlyRegionTotals, RainfallRecord.year]

/-- C4 amended: provided "Ladakh" is among the (post-exclusion) boundary
region names, whenever the year's aggregated total for "Jammu and Kashmir"
exists and no "Ladakh" total exists for that year, `YearlyRegionTotals`
contains a synthetic "Ladakh" entry equal to the J&K total for that year;
and the proxy is recomputed per aggregated year: a year whose aggregate has
neither a J&K nor a Ladakh entry yields an absent (`none`) Ladakh total. -/
theorem C4_ladakh_proxy (rs : List RainfallRecord) (gs : List String)
    (y : Int) (hLb : "Ladakh" ∈ gs) :
    (∀ q : ℚ,
      lookupTotal "Jammu and Kashmir" (df_year_grouped rs y) = some q →
      "Ladakh" ∉ (df_year_grouped rs y).map Prod.fst →
      lookupTotal "Ladakh" (df_year rs y) = some q ∧
      ("Ladakh", some q) ∈ yearlyRegionTotals rs gs y) ∧
    ("Jammu and Kashmir" ∉ (df_year_grouped rs y).map Prod.fst →
      "Ladakh" ∉ (df_year_grouped rs y).map Prod.fst →
      lookupTotal "Ladakh" (df_year rs y) = none ∧
      ("Ladakh", (none : Option ℚ)) ∈ yearlyRegionTotals rs gs y) := by
  constructor
  · intro q hq hno
    have hjk : "Jammu and Kashmir" ∈ (df_year_grouped rs y).map Prod.fst := by
      by_contra hc
      rw [(lookupTotal_eq_none_iff _ _).mpr hc] at hq
      exact Option.noConfusion hq
    have hdf : df_year rs y = df_year_grouped rs y ++ [("Ladakh", q)] := by
      simp only [df_year]
      rw [if_pos ⟨hjk, hno⟩, hq]
      rfl
    have hlook : lookupTotal "Ladakh" (df_year rs y) = some q := by
      rw [hdf, lookupTotal_append_of_not_mem _ _ _ hno]
      simp [lookupTotal]
    exact ⟨hlook, List.mem_map.mpr ⟨"Ladakh", hLb, by rw [hlook]⟩⟩
  · intro hjk hno
    have hdf : df_year rs y = df_year_grouped rs y := by
      simp only [df_year]
      rw [if_neg]
      rintro ⟨h1, -⟩
      exact hjk h1
    have hlook : lookupTotal "Ladakh" (df_year rs y) = none := by
      rw [hdf]
      exact (lookupTotal_eq_none_iff _ _).mpr hno
    exact ⟨hlook, List.mem_map.mpr ⟨"Ladakh", hLb, by rw [hlook]⟩⟩

/-- C4 amended witness: with the J&K-only dataset and a boundary list that
does contain "Ladakh", the synthetic entry ("Ladakh", 50) is in the join
result for 2025; and for the same dataset in 2026 (no J&K aggregate) the
Ladakh entry is absent (`none`). -/
theorem C4_ladakh_proxy_witness :
    "Ladakh" ∈ ["Jammu and Kashmir", "Ladakh"] ∧
    lookupTotal "Jammu and Kashmir"
        (df_year_grouped [⟨"Jammu and Kashmir", ⟨2025, 1, 1⟩, 50⟩] 2025)
      = some 50 ∧
    "Ladakh" ∉ (df_year_grouped
        [⟨"Jammu and Kashmir", ⟨2025, 1, 1⟩, 50⟩] 2025).map Prod.fst ∧
    ("Ladakh", (some 50 : Option ℚ)) ∈ yearlyRegionTotals
        [⟨"Jammu and Kashmir", ⟨2025, 1, 1⟩, 50⟩]
        ["Jammu and Kashmir", "Ladakh"] 2025 ∧
    ("Ladakh", (none : Option ℚ)) ∈ yearlyRegionTotals
        [⟨"Jammu and Kashmir", ⟨2025, 1, 1⟩, 50⟩]
        ["Jammu and Kashmir", "Ladakh"] 2026 :=
  ⟨by decide,
   by simp +decide [df_year_grouped, groupTotals, statesOf, yearFilter,
     sumRainfall, lookupTotal, RainfallRecord.year],
   by decide,
   ((C4_ladakh_proxy [⟨"Jammu and Kashmir", ⟨2025, 1, 1⟩, 50⟩]
      ["Jammu and Kashmir", "Ladakh"] 2025 (by decide)).1 50
      (by simp +decide [df_year_grouped, groupTotals, statesOf, yearFilter,
        sumRainfall, lookupTotal, RainfallRecord.year])
      (by decide)).2,
   ((C4_ladakh_proxy [⟨"Jammu and Kashmir", ⟨2025, 1, 1⟩, 50⟩]
      ["Jammu and Kashmir", "Ladakh"] 2026 (by decide)).2
      (by decide) (by decide)).2⟩

end Rainfall

namespace Rainfall

/-- C7 counterexample: the pipeline performs no selection validation and
has no `SelectionError` channel: for the unobserved year 1999 (and an
unobserved region "Bihar") the operations silently return zero totals,
an empty aggregate and an empty series, instead of failing — exactly the
"silent empty or zero result" the claim rules out. -/
theorem C7_silent_empty_counterexample :
    (1999 : Int) ∉ observedYears [⟨"Kerala", ⟨2025, 1, 15⟩, 5⟩] ∧
    yearOverYearComparison [⟨"Kerala", ⟨2025, 1, 15⟩, 5⟩] "Kerala" 1999
      = ⟨0, 0, none, none⟩ ∧
    df_year_grouped [⟨"Kerala", ⟨2025, 1, 15⟩, 5⟩] 1999 = [] ∧
    yearlyRegionTotals [⟨"Kerala", ⟨2025, 1, 15⟩, 5⟩] ["Kerala"] 1999
      = [("Kerala", none)] ∧
    "Bihar" ∉ statesOf [⟨"Kerala", ⟨2025, 1, 15⟩, 5⟩] ∧
    yearlySeries [⟨"Kerala", ⟨2025, 1, 15⟩, 5⟩] "Bihar" = [] := by
  refine ⟨?_, ?_, ?_, ?_, ?_, ?_⟩ <;>
    simp +decide [observedYears, yearOverYearComparison, regionYearTotal,
      sumRainfall, RainfallRecord.year, df_year_grouped, groupTotals,
      statesOf, yearFilter, yearlyRegionTotals, df_year, lookupTotal,
      yearlySeries, yearsOf, sortYears, insertYear]

/-- C7 amended: the four operations perform no validation of the selected
year or region and cannot raise a `SelectionError`; a selection outside the
observed values silently yields empty or zero results: an unobserved year
gives an empty year aggregate, an all-`none` joined table, a zero current
total and an empty monthly series, and an unobserved region gives an empty
yearly series, an all-zero comparison and an empty monthly series.  (The
UI populates its selectors exclusively from observed values, so these
inputs are unreachable through the app itself.) -/
theorem C7_no_selection_validation (rs : List RainfallRecord)
    (gs : List String) (s : String) (y : Int) :
    (y ∉ observedYears rs →
      df_year_grouped rs y = [] ∧
      (∀ p ∈ yearlyRegionTotals rs gs y, p.2 = none) ∧
      (yearOverYearComparison rs s y).current_total = 0 ∧
      ((∀ m ∈ month_order, m ∈ monthNamesPresent rs) →
        monthlySeries rs s y = Except.ok [])) ∧
    ((∀ r ∈ rs, ¬ r.state_name = s) →
      yearlySeries rs s = [] ∧
      yearOverYearComparison rs s y = ⟨0, 0, none, none⟩ ∧
      ((∀ m ∈ month_order, m ∈ monthNamesPresent rs) →
        monthlySeries rs s y = Except.ok [])) := by
  constructor
  · intro hy
    have hyf : yearFilter rs y = [] := yearFilter_eq_nil_of_not_observed rs y hy
    have hg : df_year_grouped rs y = [] := by
      unfold df_year_grouped
      rw [hyf]
      rfl
    have hdf : df_year rs y = [] := by
      simp only [df_year, hg]
      rw [if_neg]
      rintro ⟨h1, -⟩
      simp at h1
    refine ⟨hg, ?_, ?_, ?_⟩
    · intro p hp
      obtain ⟨a, -, rfl⟩ := List.mem_map.mp hp
      simp [hdf, lookupTotal]
    · have hnil : rs.filter (fun r => r.state_name = s ∧ r.year = y) = [] := by
        refine List.filter_eq_nil_iff.mpr (fun r hr => ?_)
        simp only [decide_eq_true_iff, not_and]
        intro _ hyr
        have : r ∈ yearFilter rs y :=
          List.mem_filter.mpr ⟨hr, decide_eq_true hyr⟩
        rw [hyf] at this
        exact absurd this (List.not_mem_nil r)
      simp only [yearOverYearComparison, regionYearTotal, hnil, sumRainfall_nil]
      split <;> rfl
    · intro hM
      exact monthlySeries_empty_of_no_pair rs s y hM
        (pairPresent_false_of_not_observed rs s y hy)
  · intro hs
    have hfil : rs.filter (fun r => r.state_name = s) = [] :=
      List.filter_eq_nil_iff.mpr
        (fun r hr => by simpa using hs r hr)
    have h1 : rs.filter (fun r => r.state_name = s ∧ r.year = y) = [] :=
      List.filter_eq_nil_iff.mpr
        (fun r hr => by simp [hs r hr])
    have h2 : rs.filter (fun r => r.state_name = s ∧ r.year = y - 1) = [] :=
      List.filter_eq_nil_iff.mpr
        (fun r hr => by simp [hs r hr])
    refine ⟨?_, ?_, ?_⟩
    · unfold yearlySeries yearsOf
      rw [hfil]
      rfl
    · simp only [yearOverYearComparison, regionYearTotal, h1, h2, sumRainfall_nil]
      rw [if_neg (lt_irrefl 0)]
    · intro hM
      exact monthlySeries_empty_of_no_pair rs s y hM
        (pairPresent_false_of_no_state rs s y hs)

/-- C7 amended witness: the single-Kerala-row dataset with the unobserved
year 1999 and the unobserved region "Bihar" yields the silent empty/zero
results of the amended claim. -/
theorem C7_no_selection_validation_witness :
    (1999 : Int) ∉ observedYears [⟨"Kerala", ⟨2025, 1, 15⟩, 5⟩] ∧
    df_year_grouped [⟨"Kerala", ⟨2025, 1, 15⟩, 5⟩] 1999 = [] ∧
    (yearOverYearComparison [⟨"Kerala", ⟨2025, 1, 15⟩, 5⟩] "Kerala" 1999).current_total = 0 ∧
    yearlySeries [⟨"Kerala", ⟨2025, 1, 15⟩, 5⟩] "Bihar" = [] ∧
    yearOverYearComparison [⟨"Kerala", ⟨2025, 1, 15⟩, 5⟩] "Bihar" 2025
      = ⟨0, 0, none, none⟩ :=
  ⟨by decide,
   ((C7_no_selection_validation [⟨"Kerala", ⟨2025, 1, 15⟩, 5⟩] ["Kerala"]
      "Kerala" 1999).1 (by decide)).1,
   ((C7_no_selection_validation [⟨"Kerala", ⟨2025, 1, 15⟩, 5⟩] ["Kerala"]
      "Kerala" 1999).1 (by decide)).2.2.1,
   ((C7_no_selection_validation [⟨"Kerala", ⟨2025, 1, 15⟩, 5⟩] ["Kerala"]
      "Bihar" 2025).2 (by decide)).1,
   ((C7_no_selection_validation [⟨"Kerala", ⟨2025, 1, 15⟩, 5⟩] ["Kerala"]
      "Bihar" 2025).2 (by decide)).2.1⟩

end Rainfall

namespace Rainfall

/-- C8 counterexample: with a "Ladakh" record in 2024 and a
"Jammu and Kashmir" record in 2025, the proxy fires for 2025 (the 2025
aggregate has a J&K entry and no Ladakh entry), yet `YearlySeries` for
"Ladakh" is the non-empty [(2024, 5)] and the 2025 year-over-year
comparison for "Ladakh" has previous total 5 — neither "empty sequence"
nor "zero totals" as the claim, quantified over all records with a proxied
year, asserts. -/
theorem C8_other_year_counterexample :
    "Ladakh" ∈ (df_year
        [⟨"Ladakh", ⟨2024, 1, 1⟩, 5⟩, ⟨"Jammu and Kashmir", ⟨2025, 1, 1⟩, 50⟩]
        2025).map Prod.fst ∧
    lookupTotal "Ladakh" (df_year
        [⟨"Ladakh", ⟨2024, 1, 1⟩, 5⟩, ⟨"Jammu and Kashmir", ⟨2025, 1, 1⟩, 50⟩]
        2025) = some 50 ∧
    yearlySeries
        [⟨"Ladakh", ⟨2024, 1, 1⟩, 5⟩, ⟨"Jammu and Kashmir", ⟨2025, 1, 1⟩, 50⟩]
        "Ladakh" = [(2024, 5)] ∧
    ¬ yearlySeries
        [⟨"Ladakh", ⟨2024, 1, 1⟩, 5⟩, ⟨"Jammu and Kashmir", ⟨2025, 1, 1⟩, 50⟩]
        "Ladakh" = [] ∧
    (yearOverYearComparison
        [⟨"Ladakh", ⟨2024, 1, 1⟩, 5⟩, ⟨"Jammu and Kashmir", ⟨2025, 1, 1⟩, 50⟩]
        "Ladakh" 2025).previous_total = 5 ∧
    ¬ (yearOverYearComparison
        [⟨"Ladakh", ⟨2024, 1, 1⟩, 5⟩, ⟨"Jammu and Kashmir", ⟨2025, 1, 1⟩, 50⟩]
        "Ladakh" 2025).previous_total = 0 := by
  refine ⟨?_, ?_, ?_, ?_, ?_, ?_⟩ <;>
    simp +decide [df_year, df_year_grouped, groupTotals, statesOf, yearFilter,
      sumRainfall, lookupTotal, yearlySeries, yearsOf, sortYears, insertYear,
      yearOverYearComparison, regionYearTotal, RainfallRecord.year]

/-- C8 amended: when no "Ladakh" record exists in any year and the year's
aggregate carries a "Jammu and Kashmir" entry, the proxy fires — the
yearly aggregate gains a "Ladakh" key — while the record-level views still
report no data: no (Ladakh, year) pivot row exists, the monthly series is
empty, the yearly series is empty, and the year-over-year comparison is
all-zero with absent derived values, because the proxy is applied only to
the yearly aggregate, never to the underlying records. -/
theorem C8_proxy_yearly_only (rs : List RainfallRecord) (y : Int)
    (hNo : ∀ r ∈ rs, ¬ r.state_name = "Ladakh")
    (hJK : "Jammu and Kashmir" ∈ (df_year_grouped rs y).map Prod.fst) :
    "Ladakh" ∈ (df_year rs y).map Prod.fst ∧
    pairPresent rs "Ladakh" y = false ∧
    ((∀ m ∈ month_order, m ∈ monthNamesPresent rs) →
      monthlySeries rs "Ladakh" y = Except.ok []) ∧
    yearlySeries rs "Ladakh" = [] ∧
    yearOverYearComparison rs "Ladakh" y = ⟨0, 0, none, none⟩ := by
  have hnl : "Ladakh" ∉ (df_year_grouped rs y).map Prod.fst := by
    rw [df_year_grouped, groupTotals_keys]
    intro hc
    obtain ⟨r, hr, hname⟩ := (mem_statesOf _ _).mp hc
    exact hNo r (List.mem_filter.mp hr).1 hname
  have h1 : rs.filter (fun r => r.state_name = "Ladakh" ∧ r.year = y) = [] :=
    List.filter_eq_nil_iff.mpr (fun r hr => by simp [hNo r hr])
  have h2 : rs.filter (fun r => r.state_name = "Ladakh" ∧ r.year = y - 1) = [] :=
    List.filter_eq_nil_iff.mpr (fun r hr => by simp [hNo r hr])
  refine ⟨?_, ?_, ?_, ?_, ?_⟩
  · simp only [df_year]
    rw [if_pos ⟨hJK, hnl⟩]
    simp
  · exact pairPresent_false_of_no_state rs "Ladakh" y hNo
  · intro hM
    exact monthlySeries_empty_of_no_pair rs "Ladakh" y hM
      (pairPresent_false_of_no_state rs "Ladakh" y hNo)
  · unfold yearlySeries yearsOf
    rw [List.filter_eq_nil_iff.mpr (fun r hr => by simp [hNo r hr])]
    rfl
  · simp only [yearOverYearComparison, regionYearTotal, h1, h2, sumRainfall_nil]
    rw [if_neg (lt_irrefl 0)]

/-- C8 amended witness: the J&K-only dataset has no Ladakh record and a
J&K entry in the 2025 aggregate, so the proxy fires for 2025 while the
yearly series and year-over-year comparison for "Ladakh" are empty/zero. -/
theorem C8_proxy_yearly_only_witness :
    ([⟨"Jammu and Kashmir", ⟨2025, 1, 1⟩, 50⟩] :
        List RainfallRecord).all (fun r => ¬ r.state_name = "Ladakh") = true ∧
    "Jammu and Kashmir" ∈ (df_year_grouped
        [⟨"Jammu and Kashmir", ⟨2025, 1, 1⟩, 50⟩] 2025).map Prod.fst ∧
    "Ladakh" ∈ (df_year
        [⟨"Jammu and Kashmir", ⟨2025, 1, 1⟩, 50⟩] 2025).map Prod.fst ∧
    yearlySeries [⟨"Jammu and Kashmir", ⟨2025, 1, 1⟩, 50⟩] "Ladakh" = [] ∧
    yearOverYearComparison [⟨"Jammu and Kashmir", ⟨2025, 1, 1⟩, 50⟩]
        "Ladakh" 2025 = ⟨0, 0, none, none⟩ :=
  ⟨by decide, by decide,
   (C8_proxy_yearly_only [⟨"Jammu and Kashmir", ⟨2025, 1, 1⟩, 50⟩] 2025
      (by decide) (by decide)).1,
   (C8_proxy_yearly_only [⟨"Jammu and Kashmir", ⟨2025, 1, 1⟩, 50⟩] 2025
      (by decide) (by decide)).2.2.2.1,
   (C8_proxy_yearly_only [⟨"Jammu and Kashmir", ⟨2025, 1, 1⟩, 50⟩] 2025
      (by decide) (by decide)).2.2.2.2⟩

end Rainfall
